import Mathlib

/-!
# Verification of the MCP configuration layer of the Incident-management repository

Shallow embedding of `config/mcp_config.py` and the lifecycle guards of
`src/autonomous_agent.py`.

The process environment is modelled as a function `Env := String → Option String`
(`os.getenv` returns `None` for an absent variable).  The filesystem is modelled
by two oracles passed explicitly where the Python code probes it:
`fe : String → Bool` for `os.path.exists` and `which : String → Option String`
for `shutil.which`.  A Python `ValueError` raised by a builder becomes
`Except.error msg`; `get_all_mcp_servers`, which catches every such
`ValueError`, is a total function returning the registry (so "never raises"
is captured by the return type), with the warning lines it prints collected
by a companion function.
-/

/-- The process environment: `os.getenv` semantics (absent variable ↦ `none`). -/
abbrev Env : Type := String → Option String

/-- Python truthiness of an `os.getenv` result: `None` and `""` are falsy. -/
def pyTruthy : Option String → Bool
  | none => false
  | some s => !(s == "")

/-- The guard `not v or v == placeholder_sentinel` used by every builder in
`mcp_config.py` for a required credential. -/
def credential_missing (v : Option String) (sentinel : String) : Bool :=
  !pyTruthy v || v == some sentinel

/-- Tests whether `needle` is an initial segment of `hay` (on character lists). -/
def list_starts_with : List Char → List Char → Bool
  | [], _ => true
  | _ :: _, [] => false
  | a :: as, b :: bs => a == b && list_starts_with as bs

/-- Tests whether `needle` occurs contiguously somewhere in `hay` (on character lists). -/
def occurs_in (needle : List Char) : List Char → Bool
  | [] => list_starts_with needle []
  | c :: rest => list_starts_with needle (c :: rest) || occurs_in needle rest

/-- Tests whether `needle` occurs in `hay` (formalising "the message mentions X"). -/
def mentions (needle hay : String) : Bool :=
  occurs_in needle.data hay.data

/-- One MCP server connection descriptor, the value of one entry of a dict
such as `{"type": "stdio", "command": ..., "args": [...], "env": {...}}`.
`args` is `[]` when the Python dict omits the key; `env` is an association
list in the textual order of the Python dict literal. -/
structure MCPServer where
  type : String
  command : String
  args : List String
  env : List (String × String)
  deriving Repr, DecidableEq

/-- A registry: mapping from provider name to descriptor, as an association
list.  The two providers use the distinct keys `"datadog"` and `"github"`,
so `dict.update` on disjoint dicts is list append. -/
abbrev Registry : Type := List (String × MCPServer)

/-- Embeds `get_datadog_mcp_config` from `config/mcp_config.py`: reads `DD_API_KEY`,
`DD_APP_KEY` and `DD_SITE` (defaulting to `"datadoghq.com"` when unset),
raises `ValueError` when a required key is falsy or a placeholder, otherwise
returns the singleton dict `{"datadog": descriptor}`.  It reads only the
environment — the signature has no filesystem oracle because the source
performs no filesystem access. -/
def get_datadog_mcp_config (env : Env) : Except String Registry :=
  let api_key := env "DD_API_KEY"
  let app_key := env "DD_APP_KEY"
  let site := (env "DD_SITE").getD "datadoghq.com"
  if credential_missing api_key "your_datadog_api_key_here" then
    Except.error
      "DD_API_KEY environment variable not set. Please set it in .env file or export it."
  else if credential_missing app_key "your_datadog_application_key_here" then
    Except.error
      "DD_APP_KEY environment variable not set. Please set it in .env file or export it."
  else
    Except.ok [("datadog",
      { type := "stdio"
        command := "datadog-mcp-server"
        args := []
        env := [("DD_API_KEY", api_key.getD ""),
                ("DD_APP_KEY", app_key.getD ""),
                ("DD_SITE", site)] })]

/-- Embeds `os.path.expanduser("~/go/bin/github-mcp-server")` for a user whose home
directory is `home`: the fixed per-user installation path of the GitHub MCP
server binary. -/
def github_mcp_path (home : String) : String :=
  home ++ "/go/bin/github-mcp-server"

/-- The `ValueError` message of `get_github_mcp_config` when the binary is
absent from the fixed path `p`. -/
def github_not_found_msg (p : String) : String :=
  "GitHub MCP Server not found at " ++ p ++
    ". Install it with: go install github.com/github/github-mcp-server/cmd/github-mcp-server@latest"

/-- Embeds `get_github_mcp_config` from `config/mcp_config.py`: reads
`GITHUB_PERSONAL_ACCESS_TOKEN`, raises `ValueError` on a falsy or placeholder
token, then checks `os.path.exists` on the fixed per-user path (oracle `fe`)
and raises `ValueError` naming that path when absent, otherwise returns the
singleton dict `{"github": descriptor}`. -/
def get_github_mcp_config (env : Env) (fe : String → Bool) (home : String) :
    Except String Registry :=
  let github_token := env "GITHUB_PERSONAL_ACCESS_TOKEN"
  if credential_missing github_token "your_github_token_here" then
    Except.error
      "GITHUB_PERSONAL_ACCESS_TOKEN not set. Create a token at https://github.com/settings/tokens with scopes: repo, read:org, read:user, workflow"
  else if !(fe (github_mcp_path home)) then
    Except.error (github_not_found_msg (github_mcp_path home))
  else
    Except.ok [("github",
      { type := "stdio"
        command := github_mcp_path home
        args := ["stdio"]
        env := [("GITHUB_PERSONAL_ACCESS_TOKEN", github_token.getD "")] })]

/-- Embeds `get_all_mcp_servers` from `config/mcp_config.py`: starts from the empty
dict, `update`s with each builder's result, and catches each builder's
`ValueError`, downgrading it to a printed warning.  It is a total function —
the embedding of "never raises". -/
def get_all_mcp_servers (env : Env) (fe : String → Bool) (home : String) : Registry :=
  (match get_datadog_mcp_config env with
   | Except.ok r => r
   | Except.error _ => []) ++
  (match get_github_mcp_config env fe home with
   | Except.ok r => r
   | Except.error _ => [])

/-- The warning lines printed by `get_all_mcp_servers`, in order. -/
def get_all_mcp_servers_warnings (env : Env) (fe : String → Bool) (home : String) :
    List String :=
  (match get_datadog_mcp_config env with
   | Except.ok _ => []
   | Except.error e => ["Warning: Could not configure Datadog MCP server: " ++ e]) ++
  (match get_github_mcp_config env fe home with
   | Except.ok _ => []
   | Except.error e => ["Warning: Could not configure GitHub MCP server: " ++ e])

/-- Embeds `validate_mcp_server` from `config/mcp_config.py`: `shutil.which`
(oracle `which`) finds `datadog-mcp-server` on the PATH. -/
def validate_mcp_server (which : String → Option String) : Bool :=
  (which "datadog-mcp-server").isSome

/-- The error raised by `AutonomousAgent.__init__`: `ValueError` for the
missing API key, `RuntimeError` for the missing Datadog MCP binary. -/
inductive InitError where
  | valueError (msg : String)
  | runtimeError (msg : String)
  deriving Repr, DecidableEq

/-- The state an `AutonomousAgent` instance holds after `__init__`:
`self.api_key`, `self.model`, the assembled registry baked into
`self.options`, and `self.client` (`None` until `start()`). -/
structure AgentState where
  api_key : String
  model : String
  mcp_servers : Registry
  client : Option Unit
  deriving Repr, DecidableEq

/-- Embeds `AutonomousAgent.__init__` from `src/autonomous_agent.py`: raises
`ValueError` when `ANTHROPIC_API_KEY` is falsy, raises `RuntimeError` when
`validate_mcp_server()` is false, otherwise assembles the registry with
`get_all_mcp_servers()` and leaves `self.client = None`. -/
def AutonomousAgent_init (env : Env) (which : String → Option String)
    (fe : String → Bool) (home model : String) : Except InitError AgentState :=
  let api_key := env "ANTHROPIC_API_KEY"
  if !pyTruthy api_key then
    Except.error (InitError.valueError
      "ANTHROPIC_API_KEY environment variable not set. Get your API key from: https://console.anthropic.com/")
  else if !(validate_mcp_server which) then
    Except.error (InitError.runtimeError
      "Datadog MCP server not found. Install with: npm install -g datadog-mcp-server")
  else
    Except.ok
      { api_key := api_key.getD ""
        model := model
        mcp_servers := get_all_mcp_servers env fe home
        client := none }

/-- Embeds `AutonomousAgent.start`: sets `self.client` to a live SDK client handle
(the handle itself is external and opaque, modelled as `Unit`). -/
def AutonomousAgent_start (st : AgentState) : AgentState :=
  { st with client := some () }

/-- Embeds `AutonomousAgent.stop`: exits the client context and sets
`self.client = None`. -/
def AutonomousAgent_stop (st : AgentState) : AgentState :=
  { st with client := none }

/-- What `AutonomousAgent.query` does before contacting the external runtime:
either it raises `RuntimeError` (client not started) or it hands the prompt
to the opaque SDK client. -/
inductive QueryOutcome where
  | runtimeError (msg : String)
  | delegated (prompt : String)
  deriving Repr, DecidableEq

/-- The guard of `AutonomousAgent.query` from `src/autonomous_agent.py`:
`if not self.client: raise RuntimeError(...)`; otherwise the prompt is sent
to the external SDK client (everything past the guard is external
behaviour). -/
def AutonomousAgent_query (st : AgentState) (prompt : String) : QueryOutcome :=
  match st.client with
  | none => QueryOutcome.runtimeError
      "Client not started. Call start() first or use async context manager."
  | some _ => QueryOutcome.delegated prompt

/-- Pointwise environment override, used to compare a variable set to `""`
with the same variable unset. -/
def setEnv (env : Env) (k : String) (v : Option String) : Env :=
  fun x => if x = k then v else env x

/-- Concrete environment: both providers fully configured. -/
def envBoth : Env := fun k =>
  if k = "DD_API_KEY" then some "abc123"
  else if k = "DD_APP_KEY" then some "def456"
  else if k = "GITHUB_PERSONAL_ACCESS_TOKEN" then some "ghp_exampletoken"
  else none

/-- Concrete environment: only the GitHub token set. -/
def envGithubOnly : Env := fun k =>
  if k = "GITHUB_PERSONAL_ACCESS_TOKEN" then some "ghp_exampletoken" else none

/-- Concrete environment: only `ANTHROPIC_API_KEY` set. -/
def envAnthOnly : Env := fun k =>
  if k = "ANTHROPIC_API_KEY" then some "sk-ant-test" else none

/-- Concrete filesystem oracle on which every path exists. -/
def feAll : String → Bool := fun _ => true

/-- Concrete filesystem oracle on which no path exists. -/
def feNone : String → Bool := fun _ => false

/-- Concrete environment: only the two Datadog credentials set, site unset. -/
def envDD : Env := fun k =>
  if k = "DD_API_KEY" then some "abc123"
  else if k = "DD_APP_KEY" then some "def456"
  else none

/-- Concrete PATH oracle that resolves every executable name. -/
def whichAll : String → Option String := fun s => some ("/usr/local/bin/" ++ s)

/-- Concrete PATH oracle on which no executable resolves. -/
def whichNone : String → Option String := fun _ => none

/-! ## Helper lemmas -/

/-- A required credential passes the guard iff it is set, non-empty and not
the placeholder sentinel. -/
lemma credential_ok_iff (v : Option String) (ph : String) :
    credential_missing v ph = false ↔ ∃ s, v = some s ∧ s ≠ "" ∧ s ≠ ph := by
  cases v <;> simp [credential_missing, pyTruthy]

lemma list_starts_with_self (n ys : List Char) :
    list_starts_with n (n ++ ys) = true := by
  induction n with
  | nil => rfl
  | cons a as ih => simp [list_starts_with, ih]

lemma occurs_in_of_starts (n hay : List Char) (h : list_starts_with n hay = true) :
    occurs_in n hay = true := by
  cases hay with
  | nil => simpa [occurs_in] using h
  | cons c rest => simp [occurs_in, h]

lemma occurs_in_append_left (n xs ys : List Char) (h : occurs_in n ys = true) :
    occurs_in n (xs ++ ys) = true := by
  induction xs with
  | nil => simpa using h
  | cons c cs ih => simp [occurs_in, ih]

/-- A string of the form `A ++ p ++ B` mentions `p`. -/
lemma mentions_of_middle (p A B : String) : mentions p (A ++ p ++ B) = true := by
  unfold mentions
  rw [String.data_append (A ++ p) B, String.data_append A p, List.append_assoc]
  exact occurs_in_append_left _ _ _
    (occurs_in_of_starts _ _ (list_starts_with_self _ _))

/-- The fixed GitHub MCP server path is never the empty string. -/
lemma github_mcp_path_ne_empty (home : String) : github_mcp_path home ≠ "" := by
  intro h
  have hd : (github_mcp_path home).data = [] := by rw [h]
  rw [github_mcp_path, String.data_append home "/go/bin/github-mcp-server"] at hd
  have := (List.append_eq_nil.mp hd).2
  simp at this

/-- Shape of a successful Datadog build: the credentials were set, non-empty
and non-placeholder, and the result is the exact singleton registry the
source constructs. -/
lemma dd_ok_shape (env : Env) (r : Registry)
    (h : get_datadog_mcp_config env = Except.ok r) :
    ∃ a b, env "DD_API_KEY" = some a ∧ env "DD_APP_KEY" = some b ∧
      a ≠ "" ∧ a ≠ "your_datadog_api_key_here" ∧
      b ≠ "" ∧ b ≠ "your_datadog_application_key_here" ∧
      r = [("datadog",
        { type := "stdio"
          command := "datadog-mcp-server"
          args := []
          env := [("DD_API_KEY", a), ("DD_APP_KEY", b),
                  ("DD_SITE", (env "DD_SITE").getD "datadoghq.com")] })] := by
  simp only [get_datadog_mcp_config] at h
  split at h
  · exact Except.noConfusion h
  · split at h
    · exact Except.noConfusion h
    · rename_i h1 h2
      obtain ⟨a, ha, ha1, ha2⟩ :=
        (credential_ok_iff _ _).mp (eq_false_of_ne_true h1)
      obtain ⟨b, hb, hb1, hb2⟩ :=
        (credential_ok_iff _ _).mp (eq_false_of_ne_true h2)
      cases h
      exact ⟨a, b, ha, hb, ha1, ha2, hb1, hb2, by rw [ha, hb]; rfl⟩

/-- Shape of a successful GitHub build: the token was set, non-empty and
non-placeholder, the binary exists at the fixed path, and the result is the
exact singleton registry the source constructs. -/
lemma gh_ok_shape (env : Env) (fe : String → Bool) (home : String) (r : Registry)
    (h : get_github_mcp_config env fe home = Except.ok r) :
    ∃ t, env "GITHUB_PERSONAL_ACCESS_TOKEN" = some t ∧
      t ≠ "" ∧ t ≠ "your_github_token_here" ∧
      fe (github_mcp_path home) = true ∧
      r = [("github",
        { type := "stdio"
          command := github_mcp_path home
          args := ["stdio"]
          env := [("GITHUB_PERSONAL_ACCESS_TOKEN", t)] })] := by
  simp only [get_github_mcp_config] at h
  split at h
  · exact Except.noConfusion h
  · split at h
    · exact Except.noConfusion h
    · rename_i h1 h2
      obtain ⟨t, ht, ht1, ht2⟩ :=
        (credential_ok_iff _ _).mp (eq_false_of_ne_true h1)
      cases h
      refine ⟨t, ht, ht1, ht2, ?_, by rw [ht]; rfl⟩
      simpa using h2

lemma dd_keys_of_ok (env : Env) (r : Registry)
    (h : get_datadog_mcp_config env = Except.ok r) :
    r.map Prod.fst = ["datadog"] := by
  obtain ⟨a, b, -, -, -, -, -, -, hr⟩ := dd_ok_shape env r h
  rw [hr]; rfl

lemma gh_keys_of_ok (env : Env) (fe : String → Bool) (home : String) (r : Registry)
    (h : get_github_mcp_config env fe home = Except.ok r) :
    r.map Prod.fst = ["github"] := by
  obtain ⟨t, -, -, -, -, hr⟩ := gh_ok_shape env fe home r h
  rw [hr]; rfl

/-- The keys of the assembled registry are exactly the successfully built
providers, in the fixed order datadog-then-github. -/
lemma get_all_keys (env : Env) (fe : String → Bool) (home : String) :
    (get_all_mcp_servers env fe home).map Prod.fst =
      (if (get_datadog_mcp_config env).isOk then ["datadog"] else []) ++
      (if (get_github_mcp_config env fe home).isOk then ["github"] else []) := by
  unfold get_all_mcp_servers
  rcases hd : get_datadog_mcp_config env with e | r <;>
    rcases hg : get_github_mcp_config env fe home with e2 | r2 <;>
      simp [Except.isOk, Except.toBool]
  · exact gh_keys_of_ok env fe home r2 hg
  · exact dd_keys_of_ok env r hd
  · rw [dd_keys_of_ok env r hd, gh_keys_of_ok env fe home r2 hg]; rfl

lemma datadog_not_in_keys (env : Env) (fe : String → Bool) (home : String)
    (h : (get_datadog_mcp_config env).isOk = false) :
    "datadog" ∉ (get_all_mcp_servers env fe home).map Prod.fst := by
  rw [get_all_keys, h]
  split <;> simp_all

lemma github_not_in_keys (env : Env) (fe : String → Bool) (home : String)
    (h : (get_github_mcp_config env fe home).isOk = false) :
    "github" ∉ (get_all_mcp_servers env fe home).map Prod.fst := by
  rw [get_all_keys, h]
  split <;> simp_all

/-! ## Claim theorems -/

/-- C6: if `GITHUB_PERSONAL_ACCESS_TOKEN` is set to a valid (non-empty,
non-placeholder) value but no file exists at the fixed per-user path
`~/go/bin/github-mcp-server`, then `get_github_mcp_config` raises a
`ValueError` whose message names that path (and, by the definition of
`github_not_found_msg`, carries the `go install ...` remediation hint). -/
theorem github_missing_binary_error (env : Env) (fe : String → Bool) (home : String)
    (htok : credential_missing (env "GITHUB_PERSONAL_ACCESS_TOKEN")
      "your_github_token_here" = false)
    (hfe : fe (github_mcp_path home) = false) :
    get_github_mcp_config env fe home =
      Except.error (github_not_found_msg (github_mcp_path home)) ∧
    mentions (github_mcp_path home) (github_not_found_msg (github_mcp_path home)) = true := by
  constructor
  · simp [get_github_mcp_config, htok, hfe]
  · unfold github_not_found_msg
    exact mentions_of_middle _ _ _

theorem github_missing_binary_error_witness :
    credential_missing (envGithubOnly "GITHUB_PERSONAL_ACCESS_TOKEN")
      "your_github_token_here" = false ∧
    feNone (github_mcp_path "/home/user") = false ∧
    (get_github_mcp_config envGithubOnly feNone "/home/user" =
       Except.error (github_not_found_msg (github_mcp_path "/home/user")) ∧
     mentions (github_mcp_path "/home/user")
       (github_not_found_msg (github_mcp_path "/home/user")) = true) :=
  ⟨rfl, rfl, github_missing_binary_error envGithubOnly feNone "/home/user" rfl rfl⟩

/-- C7: with valid `DD_API_KEY` and `DD_APP_KEY` and `DD_SITE` unset,
the Datadog descriptor binds `DD_SITE` to the default `"datadoghq.com"`. -/
theorem datadog_site_defaults (env : Env)
    (h1 : credential_missing (env "DD_API_KEY") "your_datadog_api_key_here" = false)
    (h2 : credential_missing (env "DD_APP_KEY") "your_datadog_application_key_here" = false)
    (h3 : env "DD_SITE" = none) :
    get_datadog_mcp_config env = Except.ok [("datadog",
      { type := "stdio"
        command := "datadog-mcp-server"
        args := []
        env := [("DD_API_KEY", (env "DD_API_KEY").getD ""),
                ("DD_APP_KEY", (env "DD_APP_KEY").getD ""),
                ("DD_SITE", "datadoghq.com")] })] := by
  simp [get_datadog_mcp_config, h1, h2, h3]

theorem datadog_site_defaults_witness :
    credential_missing (envDD "DD_API_KEY") "your_datadog_api_key_here" = false ∧
    credential_missing (envDD "DD_APP_KEY") "your_datadog_application_key_here" = false ∧
    envDD "DD_SITE" = none ∧
    get_datadog_mcp_config envDD = Except.ok [("datadog",
      { type := "stdio"
        command := "datadog-mcp-server"
        args := []
        env := [("DD_API_KEY", "abc123"),
                ("DD_APP_KEY", "def456"),
                ("DD_SITE", "datadoghq.com")] })] :=
  ⟨rfl, rfl, rfl, datadog_site_defaults envDD rfl rfl rfl⟩

/-- C9: the result of `get_datadog_mcp_config` is determined solely by the
values of `DD_API_KEY`, `DD_APP_KEY` and `DD_SITE`: two environments that
agree on those three variables yield identical results.  The function takes
no filesystem oracle at all (no filesystem access appears in its source),
so its success is independent of whether any executable is installed. -/
theorem datadog_config_depends_only_on_dd_vars (env1 env2 : Env)
    (h1 : env1 "DD_API_KEY" = env2 "DD_API_KEY")
    (h2 : env1 "DD_APP_KEY" = env2 "DD_APP_KEY")
    (h3 : env1 "DD_SITE" = env2 "DD_SITE") :
    get_datadog_mcp_config env1 = get_datadog_mcp_config env2 := by
  unfold get_datadog_mcp_config
  rw [h1, h2, h3]

theorem datadog_config_depends_only_on_dd_vars_witness :
    envBoth "DD_API_KEY" = envDD "DD_API_KEY" ∧
    envBoth "DD_APP_KEY" = envDD "DD_APP_KEY" ∧
    envBoth "DD_SITE" = envDD "DD_SITE" ∧
    get_datadog_mcp_config envBoth = get_datadog_mcp_config envDD :=
  ⟨rfl, rfl, rfl, datadog_config_depends_only_on_dd_vars envBoth envDD rfl rfl rfl⟩

/-- C10: a credential set to the empty string is treated exactly like an
absent one: for each of `DD_API_KEY`, `DD_APP_KEY` and
`GITHUB_PERSONAL_ACCESS_TOKEN`, the build result with the variable set to
`""` equals the build result with it unset, and that result is an error. -/
theorem empty_credential_same_as_unset (env : Env) (fe : String → Bool) (home : String) :
    (get_datadog_mcp_config (setEnv env "DD_API_KEY" (some "")) =
       get_datadog_mcp_config (setEnv env "DD_API_KEY" none) ∧
     (get_datadog_mcp_config (setEnv env "DD_API_KEY" (some ""))).isOk = false) ∧
    (get_datadog_mcp_config (setEnv env "DD_APP_KEY" (some "")) =
       get_datadog_mcp_config (setEnv env "DD_APP_KEY" none) ∧
     (get_datadog_mcp_config (setEnv env "DD_APP_KEY" (some ""))).isOk = false) ∧
    (get_github_mcp_config (setEnv env "GITHUB_PERSONAL_ACCESS_TOKEN" (some "")) fe home =
       get_github_mcp_config (setEnv env "GITHUB_PERSONAL_ACCESS_TOKEN" none) fe home ∧
     (get_github_mcp_config (setEnv env "GITHUB_PERSONAL_ACCESS_TOKEN" (some "")) fe home).isOk
       = false) := by
  refine ⟨⟨rfl, rfl⟩, ⟨?_, ?_⟩, ⟨rfl, rfl⟩⟩
  · cases hc : credential_missing (env "DD_API_KEY") "your_datadog_api_key_here" <;>
      simp [get_datadog_mcp_config, setEnv, hc, credential_missing, pyTruthy]
  · have happ : credential_missing (setEnv env "DD_APP_KEY" (some "") "DD_APP_KEY")
        "your_datadog_application_key_here" = true := by
      simp [setEnv, credential_missing, pyTruthy]
    cases hc : credential_missing (setEnv env "DD_APP_KEY" (some "") "DD_API_KEY")
        "your_datadog_api_key_here" <;>
      simp [get_datadog_mcp_config, hc, happ, Except.isOk, Except.toBool]

/-- Concrete environment: only `DD_API_KEY` set (valid), everything else unset. -/
def envDDApiOnly : Env := fun k =>
  if k = "DD_API_KEY" then some "abc123" else none

/-- C1: an absent or placeholder credential makes the corresponding build
raise a `ValueError` whose message names the missing variable, and keeps the
provider's name out of every registry produced by `get_all_mcp_servers`. -/
theorem missing_or_placeholder_credential_rejected
    (env : Env) (fe : String → Bool) (home : String) :
    (credential_missing (env "DD_API_KEY") "your_datadog_api_key_here" = true →
      get_datadog_mcp_config env = Except.error
        "DD_API_KEY environment variable not set. Please set it in .env file or export it." ∧
      mentions "DD_API_KEY"
        "DD_API_KEY environment variable not set. Please set it in .env file or export it."
        = true ∧
      "datadog" ∉ (get_all_mcp_servers env fe home).map Prod.fst) ∧
    (credential_missing (env "DD_APP_KEY") "your_datadog_application_key_here" = true →
      credential_missing (env "DD_API_KEY") "your_datadog_api_key_here" = false →
      get_datadog_mcp_config env = Except.error
        "DD_APP_KEY environment variable not set. Please set it in .env file or export it." ∧
      mentions "DD_APP_KEY"
        "DD_APP_KEY environment variable not set. Please set it in .env file or export it."
        = true ∧
      "datadog" ∉ (get_all_mcp_servers env fe home).map Prod.fst) ∧
    (credential_missing (env "GITHUB_PERSONAL_ACCESS_TOKEN") "your_github_token_here" = true →
      get_github_mcp_config env fe home = Except.error
        "GITHUB_PERSONAL_ACCESS_TOKEN not set. Create a token at https://github.com/settings/tokens with scopes: repo, read:org, read:user, workflow" ∧
      mentions "GITHUB_PERSONAL_ACCESS_TOKEN"
        "GITHUB_PERSONAL_ACCESS_TOKEN not set. Create a token at https://github.com/settings/tokens with scopes: repo, read:org, read:user, workflow"
        = true ∧
      "github" ∉ (get_all_mcp_servers env fe home).map Prod.fst) := by
  refine ⟨fun h => ?_, fun h h2 => ?_, fun h => ?_⟩
  · have herr : get_datadog_mcp_config env = Except.error
        "DD_API_KEY environment variable not set. Please set it in .env file or export it." := by
      simp [get_datadog_mcp_config, h]
    exact ⟨herr, by decide, datadog_not_in_keys env fe home (by rw [herr]; rfl)⟩
  · have herr : get_datadog_mcp_config env = Except.error
        "DD_APP_KEY environment variable not set. Please set it in .env file or export it." := by
      simp [get_datadog_mcp_config, h, h2]
    exact ⟨herr, by decide, datadog_not_in_keys env fe home (by rw [herr]; rfl)⟩
  · have herr : get_github_mcp_config env fe home = Except.error
        "GITHUB_PERSONAL_ACCESS_TOKEN not set. Create a token at https://github.com/settings/tokens with scopes: repo, read:org, read:user, workflow" := by
      simp [get_github_mcp_config, h]
    exact ⟨herr, by decide, github_not_in_keys env fe home (by rw [herr]; rfl)⟩

theorem missing_or_placeholder_credential_rejected_witness :
    "datadog" ∉ (get_all_mcp_servers envDDApiOnly feAll "/home/user").map Prod.fst ∧
    "github" ∉ (get_all_mcp_servers envDDApiOnly feAll "/home/user").map Prod.fst :=
  ⟨((missing_or_placeholder_credential_rejected envDDApiOnly feAll "/home/user").2.1
      rfl rfl).2.2,
   ((missing_or_placeholder_credential_rejected envDDApiOnly feAll "/home/user").2.2
      rfl).2.2⟩

/-- C2: `get_all_mcp_servers` is a total function (the embedding of "never
raises", for every combination of configured and unconfigured providers),
and it returns the empty registry exactly when neither provider's build
succeeds. -/
theorem get_all_mcp_servers_total_empty_iff (env : Env) (fe : String → Bool) (home : String) :
    get_all_mcp_servers env fe home = [] ↔
      ((get_datadog_mcp_config env).isOk = false ∧
       (get_github_mcp_config env fe home).isOk = false) := by
  rcases hd : get_datadog_mcp_config env with e | r
  · rcases hg : get_github_mcp_config env fe home with e2 | r2
    · simp [get_all_mcp_servers, hd, hg, Except.isOk, Except.toBool]
    · obtain ⟨t, -, -, -, -, hr2⟩ := gh_ok_shape env fe home r2 hg
      subst hr2
      simp [get_all_mcp_servers, hd, hg, Except.isOk, Except.toBool]
  · obtain ⟨a, b, -, -, -, -, -, -, hr⟩ := dd_ok_shape env r hd
    subst hr
    rcases hg : get_github_mcp_config env fe home with e2 | r2 <;>
      simp [get_all_mcp_servers, hd, hg, Except.isOk, Except.toBool]

/-- C3: the keys of the assembled registry are exactly the providers whose
build succeeds; concretely, with both providers configured the keys are
`datadog` and `github`, and with only the GitHub token set the keys are just
`github` while the emitted warning names Datadog. -/
theorem get_all_mcp_servers_keys_exact :
    (∀ (env : Env) (fe : String → Bool) (home : String),
       (get_all_mcp_servers env fe home).map Prod.fst =
         (if (get_datadog_mcp_config env).isOk then ["datadog"] else []) ++
         (if (get_github_mcp_config env fe home).isOk then ["github"] else [])) ∧
    (get_all_mcp_servers envBoth feAll "/home/user").map Prod.fst = ["datadog", "github"] ∧
    (get_all_mcp_servers envGithubOnly feAll "/home/user").map Prod.fst = ["github"] ∧
    get_all_mcp_servers_warnings envGithubOnly feAll "/home/user" =
      ["Warning: Could not configure Datadog MCP server: DD_API_KEY environment variable not set. Please set it in .env file or export it."] ∧
    mentions "Datadog"
      "Warning: Could not configure Datadog MCP server: DD_API_KEY environment variable not set. Please set it in .env file or export it."
      = true :=
  ⟨get_all_keys, rfl, rfl, rfl, by decide⟩

/-- C4: a successful build returns a descriptor with a non-empty command and
an `env` mapping holding exactly the provider's required keys, bound to the
configured, non-empty, non-placeholder values. -/
theorem build_success_descriptor_shape (env : Env) (fe : String → Bool) (home : String) :
    (∀ r, get_datadog_mcp_config env = Except.ok r →
      ∃ a b, env "DD_API_KEY" = some a ∧ env "DD_APP_KEY" = some b ∧
        a ≠ "" ∧ a ≠ "your_datadog_api_key_here" ∧
        b ≠ "" ∧ b ≠ "your_datadog_application_key_here" ∧
        r = [("datadog",
          { type := "stdio"
            command := "datadog-mcp-server"
            args := []
            env := [("DD_API_KEY", a), ("DD_APP_KEY", b),
                    ("DD_SITE", (env "DD_SITE").getD "datadoghq.com")] })] ∧
        (∀ p ∈ r, p.2.command ≠ "")) ∧
    (∀ r, get_github_mcp_config env fe home = Except.ok r →
      ∃ t, env "GITHUB_PERSONAL_ACCESS_TOKEN" = some t ∧
        t ≠ "" ∧ t ≠ "your_github_token_here" ∧
        r = [("github",
          { type := "stdio"
            command := github_mcp_path home
            args := ["stdio"]
            env := [("GITHUB_PERSONAL_ACCESS_TOKEN", t)] })] ∧
        (∀ p ∈ r, p.2.command ≠ "")) := by
  constructor
  · intro r h
    obtain ⟨a, b, ha, hb, ha1, ha2, hb1, hb2, hr⟩ := dd_ok_shape env r h
    refine ⟨a, b, ha, hb, ha1, ha2, hb1, hb2, hr, ?_⟩
    subst hr
    intro p hp
    simp only [List.mem_singleton] at hp
    subst hp
    simp
  · intro r h
    obtain ⟨t, ht, ht1, ht2, hfe, hr⟩ := gh_ok_shape env fe home r h
    refine ⟨t, ht, ht1, ht2, hr, ?_⟩
    subst hr
    intro p hp
    simp only [List.mem_singleton] at hp
    subst hp
    exact github_mcp_path_ne_empty home

theorem build_success_descriptor_shape_witness :
    (∃ a b, envBoth "DD_API_KEY" = some a ∧ envBoth "DD_APP_KEY" = some b ∧
      a ≠ "" ∧ a ≠ "your_datadog_api_key_here" ∧
      b ≠ "" ∧ b ≠ "your_datadog_application_key_here" ∧
      ([("datadog",
        { type := "stdio"
          command := "datadog-mcp-server"
          args := []
          env := [("DD_API_KEY", "abc123"), ("DD_APP_KEY", "def456"),
                  ("DD_SITE", "datadoghq.com")] })] : Registry) =
        [("datadog",
          { type := "stdio"
            command := "datadog-mcp-server"
            args := []
            env := [("DD_API_KEY", a), ("DD_APP_KEY", b),
                    ("DD_SITE", "datadoghq.com")] })] ∧
      (∀ p ∈ ([("datadog",
        { type := "stdio"
          command := "datadog-mcp-server"
          args := []
          env := [("DD_API_KEY", "abc123"), ("DD_APP_KEY", "def456"),
                  ("DD_SITE", "datadoghq.com")] })] : Registry), p.2.command ≠ "")) ∧
    (∃ t, envBoth "GITHUB_PERSONAL_ACCESS_TOKEN" = some t ∧
      t ≠ "" ∧ t ≠ "your_github_token_here" ∧
      ([("github",
        { type := "stdio"
          command := "/home/user/go/bin/github-mcp-server"
          args := ["stdio"]
          env := [("GITHUB_PERSONAL_ACCESS_TOKEN", "ghp_exampletoken")] })] : Registry) =
        [("github",
          { type := "stdio"
            command := github_mcp_path "/home/user"
            args := ["stdio"]
            env := [("GITHUB_PERSONAL_ACCESS_TOKEN", t)] })] ∧
      (∀ p ∈ ([("github",
        { type := "stdio"
          command := "/home/user/go/bin/github-mcp-server"
          args := ["stdio"]
          env := [("GITHUB_PERSONAL_ACCESS_TOKEN", "ghp_exampletoken")] })] : Registry),
        p.2.command ≠ "")) :=
  ⟨(build_success_descriptor_shape envBoth feAll "/home/user").1 _ rfl,
   (build_success_descriptor_shape envBoth feAll "/home/user").2 _ rfl⟩

/-- C5 counterexample: the claim "construction succeeds whenever
`ANTHROPIC_API_KEY` is set, regardless of provider configuration" is false
on the code: with `ANTHROPIC_API_KEY` set but `datadog-mcp-server` absent
from the PATH, `AutonomousAgent.__init__` raises `RuntimeError`. -/
theorem agent_init_fails_without_datadog_binary :
    pyTruthy (envAnthOnly "ANTHROPIC_API_KEY") = true ∧
    AutonomousAgent_init envAnthOnly whichNone feNone "/home/user"
        "claude-sonnet-4-20250514" =
      Except.error (InitError.runtimeError
        "Datadog MCP server not found. Install with: npm install -g datadog-mcp-server") :=
  ⟨rfl, rfl⟩

/-- C5 (amended): whenever `ANTHROPIC_API_KEY` is set to a truthy value AND
`validate_mcp_server` finds `datadog-mcp-server` on the PATH,
`AutonomousAgent.__init__` succeeds regardless of which tool providers'
credentials are configured — including when zero providers configure
successfully — leaving `client = None` and whatever registry
`get_all_mcp_servers` assembled (possibly empty). -/
theorem agent_init_succeeds_with_key_and_binary (env : Env)
    (which : String → Option String) (fe : String → Bool) (home model : String)
    (hk : pyTruthy (env "ANTHROPIC_API_KEY") = true)
    (hw : validate_mcp_server which = true) :
    AutonomousAgent_init env which fe home model = Except.ok
      { api_key := (env "ANTHROPIC_API_KEY").getD ""
        model := model
        mcp_servers := get_all_mcp_servers env fe home
        client := none } := by
  simp [AutonomousAgent_init, hk, hw]

theorem agent_init_succeeds_with_key_and_binary_witness :
    pyTruthy (envAnthOnly "ANTHROPIC_API_KEY") = true ∧
    validate_mcp_server whichAll = true ∧
    get_all_mcp_servers envAnthOnly feNone "/home/user" = [] ∧
    AutonomousAgent_init envAnthOnly whichAll feNone "/home/user"
        "claude-sonnet-4-20250514" =
      Except.ok
        { api_key := "sk-ant-test"
          model := "claude-sonnet-4-20250514"
          mcp_servers := []
          client := none } :=
  ⟨rfl, rfl, rfl,
   agent_init_succeeds_with_key_and_binary envAnthOnly whichAll feNone "/home/user"
     "claude-sonnet-4-20250514" rfl rfl⟩

/-- C8: calling `query` while the internal client handle is `None` yields
the `RuntimeError` instead of attempting the query; the handle is `None`
right after a successful `__init__` and again after `stop()`, so any query
issued before `start()` (or after `stop()`) hits this guard. -/
theorem query_before_start_runtime_error :
    (∀ (st : AgentState) (prompt : String), st.client = none →
       AutonomousAgent_query st prompt = QueryOutcome.runtimeError
         "Client not started. Call start() first or use async context manager.") ∧
    (∀ (env : Env) (which : String → Option String) (fe : String → Bool)
       (home model : String) (st : AgentState),
       AutonomousAgent_init env which fe home model = Except.ok st →
       st.client = none) ∧
    (∀ st : AgentState, (AutonomousAgent_stop st).client = none) := by
  refine ⟨fun st prompt h => ?_, fun env which fe home model st h => ?_, fun st => rfl⟩
  · simp [AutonomousAgent_query, h]
  · simp only [AutonomousAgent_init] at h
    split at h
    · exact Except.noConfusion h
    · split at h
      · exact Except.noConfusion h
      · cases h; rfl

/-- Concrete idle agent state: constructed but never started. -/
def stIdle : AgentState :=
  { api_key := "sk-ant-test"
    model := "claude-sonnet-4-20250514"
    mcp_servers := []
    client := none }

theorem query_before_start_runtime_error_witness :
    AutonomousAgent_query stIdle "How many monitors are alerting?" =
      QueryOutcome.runtimeError
        "Client not started. Call start() first or use async context manager." ∧
    (AutonomousAgent_stop (AutonomousAgent_start stIdle)).client = none :=
  ⟨(query_before_start_runtime_error).1 stIdle "How many monitors are alerting?" rfl,
   (query_before_start_runtime_error).2.2 (AutonomousAgent_start stIdle)⟩
